import Mathlib

/-!
Shallow embedding of `src/data/AddBiomechanicsDataset.py` from the
InferBiomechanics repository.

Conventions of the embedding:
* numpy `float64` arrays are modelled as frame-major matrices `List (List ℚ)`
  (rows = time steps); the Python code receives arrays from the recording
  source (nimblephysics `SubjectOnDisk`) and immediately calls `.transpose()`,
  so the oracle here hands them out already frame-major.
* The recording source is an oracle: a `Subject` value holds everything the
  Python code ever reads through the `nimble.biomechanics.SubjectOnDisk` API
  (header metadata, trials, per-pass arrays, the read skeleton).
* Fallible construction (`assert data_path.endswith(".b3d")`) is modelled with
  `Except LoadError`.
* `np.random.seed(subject_index)` seeds global numpy randomness; window
  construction draws no random numbers, so the seed state is not threaded.
-/

namespace InferBiomechanics

/-- Row slice `m[start:stop, :]` of a frame-major numpy matrix. -/
def sliceRows (m : List (List ℚ)) (start stop : ℕ) : List (List ℚ) :=
  (m.drop start).take (stop - start)

/-- Column slice `m[:, c0:c1]` of a frame-major numpy matrix. -/
def sliceCols (m : List (List ℚ)) (c0 c1 : ℕ) : List (List ℚ) :=
  m.map (fun row => (row.drop c0).take (c1 - c0))

/-- Elementwise scalar division `m / mass` of a numpy matrix. -/
def divRows (m : List (List ℚ)) (mass : ℚ) : List (List ℚ) :=
  m.map (fun row => row.map (fun x => x / mass))

/-- Model of `np.zeros((rows, cols))`. -/
def zeros (rows cols : ℕ) : List (List ℚ) :=
  List.replicate rows (List.replicate cols 0)

/-- Numpy block assignment `m[:, c0:c0+w] = b` where `b` has the same number
of rows as `m` and each of its rows has width `w`. Each row is rewritten as
prefix ++ block row ++ suffix. -/
def setCols (m : List (List ℚ)) (c0 : ℕ) (b : List (List ℚ)) : List (List ℚ) :=
  m.zipWith (fun row brow => row.take c0 ++ brow ++ row.drop (c0 + brow.length)) b

/-- The per-frame `MissingGRFReason` enum of nimblephysics; the Python code
only ever compares a reason against the `notMissingGRF` sentinel. -/
inductive MissingGRFReason where
  | notMissingGRF
  | measuredGrfZeroWhenAccelerationNonZero
  | unmeasuredExternalContactDetected
  deriving DecidableEq, Repr

/-- One processing pass of one trial
(`nimble.biomechanics.SubjectOnDiskTrialPass`). Every matrix is stored
frame-major, i.e. as the Python code sees it after `.transpose()`. -/
structure TrialPass where
  poses : List (List ℚ)
  vels : List (List ℚ)
  accs : List (List ℚ)
  jointCentersInRootFrame : List (List ℚ)
  rootSpatialVelInRootFrame : List (List ℚ)
  rootSpatialAccInRootFrame : List (List ℚ)
  rootPosHistoryInRootFrame : List (List ℚ)
  rootEulerHistoryInRootFrame : List (List ℚ)
  taus : List (List ℚ)
  groundBodyWrenchesInRootFrame : List (List ℚ)
  groundBodyCopTorqueForceInRootFrame : List (List ℚ)
  comAccsInRootFrame : List (List ℚ)
  residualWrenchInRootFrame : List (List ℚ)
  deriving DecidableEq, Repr

instance : Inhabited TrialPass :=
  ⟨⟨[], [], [], [], [], [], [], [], [], [], [], [], []⟩⟩

/-- One trial of one subject: its frame count (`getTrialLength`), its
per-frame missing-GRF reasons (`getMissingGRF`), and its processing passes
(`getHeaderProto().getTrials()[trial].getPasses()`). -/
structure Trial where
  length : ℕ
  missingGRF : List MissingGRFReason
  passes : List TrialPass
  deriving DecidableEq, Repr

instance : Inhabited Trial := ⟨⟨0, [], []⟩⟩

/-- An articulated-body structure returned by `readSkel`; the constructor only
ever calls `getBodyNode` on it, so it is modelled by its body-node names. -/
structure Skeleton where
  bodyNodeNames : List String
  deriving DecidableEq, Repr

/-- Model of `skeleton.getBodyNode(body)`: the resolved body node (modelled by its
index among the skeleton's body nodes), or `none` when absent. -/
def Skeleton.getBodyNode (s : Skeleton) (body : String) : Option ℕ :=
  s.bodyNodeNames.indexOf? body

/-- Everything the Python code reads from a `nimble.biomechanics.SubjectOnDisk`
oracle for one subject file: header metadata plus the fully loaded trials. -/
structure Subject where
  numDofs : ℕ
  numJoints : ℕ
  groundForceBodies : List String
  massKg : ℚ
  numProcessingPasses : ℕ
  trials : List Trial
  skel : Skeleton
  deriving DecidableEq, Repr

/-- Model of `subject.readSkel(passIndex, geometryFolder)`: the oracle returns the
subject's skeleton; the pass index and geometry folder select on-disk data the
model does not distinguish. -/
def Subject.readSkel (s : Subject) (_passIndex : ℕ) (_geometryFolder : String) :
    Skeleton :=
  s.skel

/-- Model of `subject.getNumTrials()`. -/
def Subject.getNumTrials (s : Subject) : ℕ := s.trials.length

/-- The input-field mapping of one window (`numpy_input_dict`), one field per
`InputDataKeys` constant. -/
structure WindowInput where
  pos : List (List ℚ)
  vel : List (List ℚ)
  acc : List (List ℚ)
  jointCentersInRootFrame : List (List ℚ)
  rootLinearVelInRootFrame : List (List ℚ)
  rootAngularVelInRootFrame : List (List ℚ)
  rootLinearAccInRootFrame : List (List ℚ)
  rootAngularAccInRootFrame : List (List ℚ)
  rootPosHistoryInRootFrame : List (List ℚ)
  rootEulerHistoryInRootFrame : List (List ℚ)
  deriving DecidableEq, Repr

/-- The output-field mapping of one window (`numpy_output_dict`), one field per
`OutputDataKeys` constant used by `prepare_data_for_subset`. -/
structure WindowOutput where
  tau : List (List ℚ)
  groundContactWrenchesInRootFrame : List (List ℚ)
  groundContactCopsInRootFrame : List (List ℚ)
  groundContactTorquesInRootFrame : List (List ℚ)
  groundContactForcesInRootFrame : List (List ℚ)
  residualWrenchInRootFrame : List (List ℚ)
  comAccInRootFrame : List (List ℚ)
  deriving DecidableEq, Repr

/-- One materialized window: the `(input_dict, label_dict, subject_index)`
triple appended to `self.windows`. -/
structure Window where
  input : WindowInput
  output : WindowOutput
  subject_index : ℕ
  deriving DecidableEq, Repr

/-- The dataset object's fields (`AddBiomechanicsDataset`). `num_dofs` and
`num_joints` are `Option` because the Python constructor leaves them unset
when no subject file is discovered. -/
structure Dataset where
  data_path : String
  window_size : ℕ
  geometry_folder : String
  subject_paths : List String
  windows : List Window
  contact_bodies : List String
  skeletons : List Skeleton
  skeletons_contact_bodies : List (List (Option ℕ))
  num_dofs : Option ℕ
  num_joints : Option ℕ
  deriving DecidableEq, Repr

/-- Model of `probably_missing = [reason != notMissingGRF for reason in
subject.getMissingGRF(trial)]`. -/
def probablyMissing (t : Trial) : List Bool :=
  t.missingGRF.map (fun reason => decide (reason ≠ MissingGRFReason.notMissingGRF))

/-- The inner `for i in range(window_start, window_start + window_size)` loop:
true when any frame of the window is probably missing GRF data. -/
def anyMissing (pm : List Bool) (window_start window_size : ℕ) : Bool :=
  (List.range window_size).any (fun k => pm.getD (window_start + k) false)

/-- Model of `max(trial_length - window_size + 1, 0)`: the number of candidate window
start positions of one trial (Python int arithmetic, hence the detour
through ℤ). -/
def numCandidates (trial_length window_size : ℕ) : ℕ :=
  ((trial_length : ℤ) - (window_size : ℤ) + 1).toNat

/-- Model of `contact_indices`: for each harmonized contact body, its index in this
subject's raw `getGroundForceBodies()` list, or `-1` when absent. -/
def contactIndices (contact_bodies rawBodies : List String) : List ℤ :=
  contact_bodies.map
    (fun body => if body ∈ rawBodies then (rawBodies.indexOf body : ℤ) else -1)

/-- The `for i in range(len(self.contact_bodies))` loop filling one of the
three zero-initialized per-contact-body output matrices: for each registry
index `i` whose contact index is non-negative, assign `block c` into columns
`3*i .. 3*i+3`, where `c` is that contact index. -/
def fillContactBlocks (n : ℕ) (ci : List ℤ) (init : List (List ℚ))
    (block : ℕ → List (List ℚ)) : List (List ℚ) :=
  (List.range n).foldl
    (fun m i =>
      if 0 ≤ ci.getD i (-1) then
        setCols m (3 * i) (block (ci.getD i (-1)).toNat)
      else m)
    init

/-- The body of `if not skip:` in `prepare_data_for_subset`: assemble one
window from the trial arrays already pulled (frame-major) from the input pass
(`processing_passes[0]`) and the output pass (`processing_passes[-1]`). -/
def makeWindow (window_size : ℕ) (contact_bodies : List String)
    (subject : Subject) (inPass outPass : TrialPass)
    (subject_index window_start : ℕ) : Window :=
  let window_end_exclusive := window_start + window_size
  let input : WindowInput :=
    { pos := sliceRows inPass.poses window_start window_end_exclusive
      vel := sliceRows inPass.vels window_start window_end_exclusive
      acc := sliceRows inPass.accs window_start window_end_exclusive
      jointCentersInRootFrame :=
        sliceRows inPass.jointCentersInRootFrame window_start window_end_exclusive
      rootLinearVelInRootFrame :=
        sliceCols (sliceRows inPass.rootSpatialVelInRootFrame window_start window_end_exclusive) 3 6
      rootAngularVelInRootFrame :=
        sliceCols (sliceRows inPass.rootSpatialVelInRootFrame window_start window_end_exclusive) 0 3
      rootLinearAccInRootFrame :=
        sliceCols (sliceRows inPass.rootSpatialAccInRootFrame window_start window_end_exclusive) 3 6
      rootAngularAccInRootFrame :=
        sliceCols (sliceRows inPass.rootSpatialAccInRootFrame window_start window_end_exclusive) 0 3
      rootPosHistoryInRootFrame :=
        sliceRows inPass.rootPosHistoryInRootFrame window_start window_end_exclusive
      rootEulerHistoryInRootFrame :=
        sliceRows inPass.rootEulerHistoryInRootFrame window_start window_end_exclusive }
  let mass := subject.massKg
  let ctf := outPass.groundBodyCopTorqueForceInRootFrame
  let ci := contactIndices contact_bodies subject.groundForceBodies
  let rows := window_end_exclusive - window_start
  let output : WindowOutput :=
    { tau := sliceRows outPass.taus window_start window_end_exclusive
      groundContactWrenchesInRootFrame :=
        divRows (sliceRows outPass.groundBodyWrenchesInRootFrame window_start window_end_exclusive) mass
      groundContactCopsInRootFrame :=
        fillContactBlocks contact_bodies.length ci
          (zeros rows (3 * contact_bodies.length))
          (fun c => sliceCols (sliceRows ctf window_start window_end_exclusive) (9 * c) (9 * c + 3))
      groundContactTorquesInRootFrame :=
        fillContactBlocks contact_bodies.length ci
          (zeros rows (3 * contact_bodies.length))
          (fun c => divRows (sliceCols (sliceRows ctf window_start window_end_exclusive) (9 * c + 3) (9 * c + 6)) mass)
      groundContactForcesInRootFrame :=
        fillContactBlocks contact_bodies.length ci
          (zeros rows (3 * contact_bodies.length))
          (fun c => divRows (sliceCols (sliceRows ctf window_start window_end_exclusive) (9 * c + 6) (9 * c + 9)) mass)
      residualWrenchInRootFrame :=
        sliceRows outPass.residualWrenchInRootFrame window_start window_end_exclusive
      comAccInRootFrame :=
        sliceRows outPass.comAccsInRootFrame window_start window_end_exclusive }
  { input := input, output := output, subject_index := subject_index }

/-- The `for window_start in range(max(trial_length - self.window_size + 1, 0))`
loop of `prepare_data_for_subset` for one trial: returns the windows appended
for this trial (in start order) and this trial's contribution to
`num_skipped`. -/
def processTrial (window_size : ℕ) (contact_bodies : List String)
    (subject : Subject) (subject_index : ℕ) (trial : Trial) :
    List Window × ℕ :=
  let pm := probablyMissing trial
  let inPass := trial.passes.getD 0 default
  let outPass := trial.passes.getLastD default
  (List.range (numCandidates trial.length window_size)).foldl
    (fun acc window_start =>
      if anyMissing pm window_start window_size then
        (acc.1, acc.2 + 1)
      else
        (acc.1 ++ [makeWindow window_size contact_bodies subject inPass outPass
                     subject_index window_start],
         acc.2))
    ([], 0)

/-- The `for trial in range(subject.getNumTrials())` loop of
`prepare_data_for_subset` for one subject. -/
def processSubject (window_size : ℕ) (contact_bodies : List String)
    (subject : Subject) (subject_index : ℕ) : List Window × ℕ :=
  subject.trials.foldl
    (fun acc trial =>
      let r := processTrial window_size contact_bodies subject subject_index trial
      (acc.1 ++ r.1, acc.2 + r.2))
    ([], 0)

/-- Model of `prepare_data_for_subset(self, subset_indices)`. The recording source is
the oracle `source`, mapping a subject path to its fully loaded
`SubjectOnDisk` data (`loadAllFrames` included). Returns the updated dataset
(with `self.windows` replaced) together with the local `num_skipped`
counter. -/
def prepare_data_for_subset (ds : Dataset) (source : String → Subject)
    (subset_indices : Option (List ℕ)) : Dataset × ℕ :=
  let idxs := subset_indices.getD (List.range ds.subject_paths.length)
  let r :=
    idxs.foldl
      (fun acc subject_index =>
        let subject := source (ds.subject_paths.getD subject_index "")
        let s := processSubject ds.window_size ds.contact_bodies subject subject_index
        (acc.1 ++ s.1, acc.2 + s.2))
      ([], 0)
  ({ ds with windows := r.1 }, r.2)

/-- Construction failure; the Python code fails its
`assert data_path.endswith(".b3d")` for a single-file path without the
recognized extension. -/
inductive LoadError where
  | invalidInput
  deriving DecidableEq, Repr

/-- The filesystem as the constructor sees it: whether `data_path` is a
directory, and — when it is — the `(root, filename)` pairs produced by
`os.walk` in walk order. -/
structure DiscoveryInput where
  isDir : Bool
  walkEntries : List (String × String)
  deriving DecidableEq, Repr

/-- Python `s.endswith(suffix)`, over the string's character sequence. -/
def pyEndsWith (s suffix : String) : Bool :=
  suffix.data.isSuffixOf s.data

/-- The discovery step of `__init__`: populate `self.subject_paths`. -/
def discoverSubjectPaths (fs : DiscoveryInput) (data_path : String) :
    Except LoadError (List String) :=
  if fs.isDir then
    .ok (fs.walkEntries.filterMap
      (fun e => if pyEndsWith e.2 ".b3d" then some (e.1 ++ "/" ++ e.2) else none))
  else if pyEndsWith data_path ".b3d" then
    .ok [data_path]
  else
    .error .invalidInput

/-- The contact-body loop of `__init__`: iterate the first subject's
`getGroundForceBodies()` in order, skipping `'pelvis'` and duplicates. -/
def buildContactBodies (raw : List String) : List String :=
  raw.foldl
    (fun acc body =>
      if body = "pelvis" then acc
      else if body ∈ acc then acc
      else acc ++ [body])
    []

/-- Model of `AddBiomechanicsDataset.__init__`. `source` is the oracle behind
`nimble.biomechanics.SubjectOnDisk(path)`. -/
def datasetInit (source : String → Subject) (fs : DiscoveryInput)
    (data_path : String) (window_size : ℕ) (geometry_folder : String)
    (testing_with_short_dataset skip_loading_skeletons : Bool) :
    Except LoadError Dataset :=
  match discoverSubjectPaths fs data_path with
  | .error e => .error e
  | .ok paths =>
    let headerData :
        List String × Option ℕ × Option ℕ :=
      if paths ≠ [] then
        let subject := source (paths.getD 0 "")
        (buildContactBodies subject.groundForceBodies,
         some subject.numDofs, some subject.numJoints)
      else
        ([], none, none)
    let subject_paths :=
      if testing_with_short_dataset then paths.take 2 else paths
    let contact_bodies := headerData.1
    let skeletons :=
      if skip_loading_skeletons then []
      else
        subject_paths.map
          (fun p =>
            let subject := source p
            subject.readSkel (subject.numProcessingPasses - 1) geometry_folder)
    let skeletons_contact_bodies :=
      skeletons.map
        (fun skeleton => contact_bodies.map (fun body => skeleton.getBodyNode body))
    let windows : List Window := []
    let windows := if testing_with_short_dataset then windows.take 100 else windows
    .ok { data_path := data_path
          window_size := window_size
          geometry_folder := geometry_folder
          subject_paths := subject_paths
          windows := windows
          contact_bodies := contact_bodies
          skeletons := skeletons
          skeletons_contact_bodies := skeletons_contact_bodies
          num_dofs := headerData.2.1
          num_joints := headerData.2.2 }

instance {ε α : Type} [DecidableEq ε] [DecidableEq α] :
    DecidableEq (Except ε α) := fun a b =>
  match a, b with
  | .error x, .error y =>
    if h : x = y then .isTrue (by rw [h]) else
      .isFalse (fun he => by cases he; exact h rfl)
  | .error _, .ok _ => .isFalse (fun he => by cases he)
  | .ok _, .error _ => .isFalse (fun he => by cases he)
  | .ok x, .ok y =>
    if h : x = y then .isTrue (by rw [h]) else
      .isFalse (fun he => by cases he; exact h rfl)

/-- Model of `__len__`. -/
def dataset_len (ds : Dataset) : ℕ := ds.windows.length

/-- Model of `__getitem__`: `self.windows[index]`, `none` modelling the `IndexError`
on an out-of-range index. -/
def dataset_getitem (ds : Dataset) (index : ℕ) : Option Window :=
  ds.windows.get? index

/-! ## Well-formedness of the recording source

The nimblephysics API contract: every per-pass array is frame-major with the
trial's frame count as leading dimension; root spatial arrays are 6 wide; the
packed per-contact-body array is `9 * len(getGroundForceBodies())` wide; the
missing-GRF list has one entry per frame; every trial has at least one
processing pass. -/

/-- Well-formedness of one processing pass of a trial with `n` frames for a
subject with `numRaw` raw contact bodies. -/
def PassWF (n numRaw : ℕ) (p : TrialPass) : Prop :=
  p.poses.length = n ∧ p.vels.length = n ∧ p.accs.length = n ∧
  p.jointCentersInRootFrame.length = n ∧
  p.rootSpatialVelInRootFrame.length = n ∧
  (∀ r ∈ p.rootSpatialVelInRootFrame, r.length = 6) ∧
  p.rootSpatialAccInRootFrame.length = n ∧
  (∀ r ∈ p.rootSpatialAccInRootFrame, r.length = 6) ∧
  p.rootPosHistoryInRootFrame.length = n ∧
  p.rootEulerHistoryInRootFrame.length = n ∧
  p.taus.length = n ∧
  p.groundBodyWrenchesInRootFrame.length = n ∧
  p.groundBodyCopTorqueForceInRootFrame.length = n ∧
  (∀ r ∈ p.groundBodyCopTorqueForceInRootFrame, r.length = 9 * numRaw) ∧
  p.comAccsInRootFrame.length = n ∧
  p.residualWrenchInRootFrame.length = n

instance (n numRaw : ℕ) (p : TrialPass) : Decidable (PassWF n numRaw p) := by
  unfold PassWF; infer_instance

/-- Well-formedness of one trial for a subject with `numRaw` raw contact
bodies. -/
def TrialWF (numRaw : ℕ) (t : Trial) : Prop :=
  t.missingGRF.length = t.length ∧ t.passes ≠ [] ∧
  ∀ p ∈ t.passes, PassWF t.length numRaw p

instance (numRaw : ℕ) (t : Trial) : Decidable (TrialWF numRaw t) := by
  unfold TrialWF; infer_instance

/-- Well-formedness of one loaded subject. -/
def SubjectWF (s : Subject) : Prop :=
  ∀ t ∈ s.trials, TrialWF s.groundForceBodies.length t

instance (s : Subject) : Decidable (SubjectWF s) := by
  unfold SubjectWF; infer_instance

/-- The subject indices a `prepare_data_for_subset` call iterates:
`subset_indices` when given, else `range(len(self.subject_paths))`. -/
def subsetIdxs (ds : Dataset) (subset_indices : Option (List ℕ)) : List ℕ :=
  subset_indices.getD (List.range ds.subject_paths.length)

/-- The total number of candidate window start positions a
`prepare_data_for_subset` call considers: for each selected subject, for each
of its trials, `max(trial_length - window_size + 1, 0)` starts. -/
def totalCandidates (ds : Dataset) (source : String → Subject)
    (subset_indices : Option (List ℕ)) : ℕ :=
  ((subsetIdxs ds subset_indices).map
    (fun subject_index =>
      (((source (ds.subject_paths.getD subject_index "")).trials).map
        (fun t => numCandidates t.length ds.window_size)).sum)).sum

/-- Spec-side recursive description of the harmonizer (§4.2 of the spec):
iterate the raw names in first-seen order, skip the ignored `'pelvis'` name,
keep each remaining name once and drop its later duplicates. Stated
independently of the constructor's accumulator loop so that the two can be
compared. -/
def firstSeenRegistry : List String → List String
  | [] => []
  | body :: rest =>
      if body = "pelvis" then firstSeenRegistry rest
      else body :: firstSeenRegistry (rest.filter (fun x => x ≠ body))
termination_by l => l.length
decreasing_by
  all_goals simp only [List.length_cons]
  · omega
  · exact Nat.lt_succ_of_le (List.length_filter_le _ _)

/-! ## Statement-level properties of a prepared window store -/

/-- All input-field and output-field matrices of one window have exactly
`ws` rows. -/
def WindowRowsOK (ws : ℕ) (w : Window) : Prop :=
  w.input.pos.length = ws ∧ w.input.vel.length = ws ∧ w.input.acc.length = ws ∧
  w.input.jointCentersInRootFrame.length = ws ∧
  w.input.rootLinearVelInRootFrame.length = ws ∧
  w.input.rootAngularVelInRootFrame.length = ws ∧
  w.input.rootLinearAccInRootFrame.length = ws ∧
  w.input.rootAngularAccInRootFrame.length = ws ∧
  w.input.rootPosHistoryInRootFrame.length = ws ∧
  w.input.rootEulerHistoryInRootFrame.length = ws ∧
  w.output.tau.length = ws ∧
  w.output.groundContactWrenchesInRootFrame.length = ws ∧
  w.output.groundContactCopsInRootFrame.length = ws ∧
  w.output.groundContactTorquesInRootFrame.length = ws ∧
  w.output.groundContactForcesInRootFrame.length = ws ∧
  w.output.residualWrenchInRootFrame.length = ws ∧
  w.output.comAccInRootFrame.length = ws

/-- Provenance of one window of a prepared store: it was assembled by
`makeWindow` from some selected subject, one of its trials, and a candidate
start whose window was not skipped; `P subject trial start` is the
claim-specific property of that provenance. -/
def WindowFrom (ds : Dataset) (source : String → Subject)
    (subset_indices : Option (List ℕ)) (w : Window)
    (P : Subject → Trial → ℕ → Prop) : Prop :=
  ∃ si ∈ subsetIdxs ds subset_indices,
  ∃ t ∈ (source (ds.subject_paths.getD si "")).trials,
  ∃ start,
    start < numCandidates t.length ds.window_size ∧
    anyMissing (probablyMissing t) start ds.window_size = false ∧
    w = makeWindow ds.window_size ds.contact_bodies
          (source (ds.subject_paths.getD si ""))
          (t.passes.getD 0 default) (t.passes.getLastD default) si start ∧
    P (source (ds.subject_paths.getD si "")) t start

/-- C1's property of a prepared store: every window has full-size arrays, no
frame of its range is flagged missing, and its range stays inside its
trial. -/
def RowsInvariantHolds (ds : Dataset) (source : String → Subject)
    (subset_indices : Option (List ℕ)) : Prop :=
  ∀ w ∈ (prepare_data_for_subset ds source subset_indices).1.windows,
    WindowRowsOK ds.window_size w ∧
    WindowFrom ds source subset_indices w
      (fun _subject t start =>
        start + ds.window_size ≤ t.length ∧
        ∀ k < ds.window_size, (probablyMissing t).getD (start + k) false = false)

/-- C2's property of a prepared store: ground-contact wrenches and the mapped
per-contact-body torque/force blocks are the raw slices divided elementwise by
the subject's mass; center-of-pressure blocks, tau, residual wrench,
center-of-mass acceleration, and every input field are copied unscaled. -/
def MassScalingHolds (ds : Dataset) (source : String → Subject)
    (subset_indices : Option (List ℕ)) : Prop :=
  ∀ w ∈ (prepare_data_for_subset ds source subset_indices).1.windows,
    WindowFrom ds source subset_indices w
      (fun subject t start =>
        let stop := start + ds.window_size
        let inPass := t.passes.getD 0 default
        let outPass := t.passes.getLastD default
        let mass := subject.massKg
        let raw := subject.groundForceBodies
        let ctf := outPass.groundBodyCopTorqueForceInRootFrame
        w.output.groundContactWrenchesInRootFrame =
          divRows (sliceRows outPass.groundBodyWrenchesInRootFrame start stop) mass ∧
        (∀ i < ds.contact_bodies.length,
          (ds.contact_bodies.getD i "") ∈ raw →
            sliceCols w.output.groundContactCopsInRootFrame (3 * i) (3 * i + 3) =
              sliceCols (sliceRows ctf start stop)
                (9 * raw.indexOf (ds.contact_bodies.getD i ""))
                (9 * raw.indexOf (ds.contact_bodies.getD i "") + 3) ∧
            sliceCols w.output.groundContactTorquesInRootFrame (3 * i) (3 * i + 3) =
              divRows (sliceCols (sliceRows ctf start stop)
                (9 * raw.indexOf (ds.contact_bodies.getD i "") + 3)
                (9 * raw.indexOf (ds.contact_bodies.getD i "") + 6)) mass ∧
            sliceCols w.output.groundContactForcesInRootFrame (3 * i) (3 * i + 3) =
              divRows (sliceCols (sliceRows ctf start stop)
                (9 * raw.indexOf (ds.contact_bodies.getD i "") + 6)
                (9 * raw.indexOf (ds.contact_bodies.getD i "") + 9)) mass) ∧
        w.output.tau = sliceRows outPass.taus start stop ∧
        w.output.residualWrenchInRootFrame =
          sliceRows outPass.residualWrenchInRootFrame start stop ∧
        w.output.comAccInRootFrame = sliceRows outPass.comAccsInRootFrame start stop ∧
        w.input.pos = sliceRows inPass.poses start stop ∧
        w.input.vel = sliceRows inPass.vels start stop ∧
        w.input.acc = sliceRows inPass.accs start stop ∧
        w.input.jointCentersInRootFrame =
          sliceRows inPass.jointCentersInRootFrame start stop ∧
        w.input.rootLinearVelInRootFrame =
          sliceCols (sliceRows inPass.rootSpatialVelInRootFrame start stop) 3 6 ∧
        w.input.rootAngularVelInRootFrame =
          sliceCols (sliceRows inPass.rootSpatialVelInRootFrame start stop) 0 3 ∧
        w.input.rootLinearAccInRootFrame =
          sliceCols (sliceRows inPass.rootSpatialAccInRootFrame start stop) 3 6 ∧
        w.input.rootAngularAccInRootFrame =
          sliceCols (sliceRows inPass.rootSpatialAccInRootFrame start stop) 0 3 ∧
        w.input.rootPosHistoryInRootFrame =
          sliceRows inPass.rootPosHistoryInRootFrame start stop ∧
        w.input.rootEulerHistoryInRootFrame =
          sliceRows inPass.rootEulerHistoryInRootFrame start stop)

/-- C4's property of a prepared store: a registry entry absent from the
owning subject's raw contact-body list leaves all three of its 3-wide output
slots zero for the whole window. -/
def AbsentBodyZeroHolds (ds : Dataset) (source : String → Subject)
    (subset_indices : Option (List ℕ)) : Prop :=
  ∀ w ∈ (prepare_data_for_subset ds source subset_indices).1.windows,
    WindowFrom ds source subset_indices w
      (fun subject _t _start =>
        ∀ i < ds.contact_bodies.length,
          (ds.contact_bodies.getD i "") ∉ subject.groundForceBodies →
            sliceCols w.output.groundContactCopsInRootFrame (3 * i) (3 * i + 3) =
              zeros ds.window_size 3 ∧
            sliceCols w.output.groundContactTorquesInRootFrame (3 * i) (3 * i + 3) =
              zeros ds.window_size 3 ∧
            sliceCols w.output.groundContactForcesInRootFrame (3 * i) (3 * i + 3) =
              zeros ds.window_size 3)

/-- C8's property of a prepared store: the four root input fields are the
angular-first (columns 0..3) and linear-last (columns 3..6) halves of the
6-wide spatial arrays, sliced to the window's frame range. -/
def RootSplitHolds (ds : Dataset) (source : String → Subject)
    (subset_indices : Option (List ℕ)) : Prop :=
  ∀ w ∈ (prepare_data_for_subset ds source subset_indices).1.windows,
    WindowFrom ds source subset_indices w
      (fun _subject t start =>
        let stop := start + ds.window_size
        let inPass := t.passes.getD 0 default
        w.input.rootAngularVelInRootFrame =
          sliceCols (sliceRows inPass.rootSpatialVelInRootFrame start stop) 0 3 ∧
        w.input.rootLinearVelInRootFrame =
          sliceCols (sliceRows inPass.rootSpatialVelInRootFrame start stop) 3 6 ∧
        w.input.rootAngularAccInRootFrame =
          sliceCols (sliceRows inPass.rootSpatialAccInRootFrame start stop) 0 3 ∧
        w.input.rootLinearAccInRootFrame =
          sliceCols (sliceRows inPass.rootSpatialAccInRootFrame start stop) 3 6)

/-! ## A small concrete instance, used to witness the theorems below. -/

/-- A concrete input pass for a 3-frame trial of a subject with 2 dofs,
1 joint and one raw contact body. -/
def exInPass : TrialPass :=
  { poses := [[1, 2], [3, 4], [5, 6]]
    vels := [[7, 8], [9, 10], [11, 12]]
    accs := [[13, 14], [15, 16], [17, 18]]
    jointCentersInRootFrame := [[1, 1, 1], [2, 2, 2], [3, 3, 3]]
    rootSpatialVelInRootFrame := [[1, 2, 3, 4, 5, 6], [7, 8, 9, 10, 11, 12], [13, 14, 15, 16, 17, 18]]
    rootSpatialAccInRootFrame := [[21, 22, 23, 24, 25, 26], [27, 28, 29, 30, 31, 32], [33, 34, 35, 36, 37, 38]]
    rootPosHistoryInRootFrame := [[1], [2], [3]]
    rootEulerHistoryInRootFrame := [[4], [5], [6]]
    taus := [[0, 0], [0, 0], [0, 0]]
    groundBodyWrenchesInRootFrame := [[0, 0, 0, 0, 0, 0], [0, 0, 0, 0, 0, 0], [0, 0, 0, 0, 0, 0]]
    groundBodyCopTorqueForceInRootFrame :=
      [[0, 0, 0, 0, 0, 0, 0, 0, 0], [0, 0, 0, 0, 0, 0, 0, 0, 0], [0, 0, 0, 0, 0, 0, 0, 0, 0]]
    comAccsInRootFrame := [[0, 0, 0], [0, 0, 0], [0, 0, 0]]
    residualWrenchInRootFrame := [[0, 0, 0, 0, 0, 0], [0, 0, 0, 0, 0, 0], [0, 0, 0, 0, 0, 0]] }

/-- A concrete output pass for the same trial. -/
def exOutPass : TrialPass :=
  { poses := [[1, 2], [3, 4], [5, 6]]
    vels := [[7, 8], [9, 10], [11, 12]]
    accs := [[13, 14], [15, 16], [17, 18]]
    jointCentersInRootFrame := [[1, 1, 1], [2, 2, 2], [3, 3, 3]]
    rootSpatialVelInRootFrame := [[1, 2, 3, 4, 5, 6], [7, 8, 9, 10, 11, 12], [13, 14, 15, 16, 17, 18]]
    rootSpatialAccInRootFrame := [[21, 22, 23, 24, 25, 26], [27, 28, 29, 30, 31, 32], [33, 34, 35, 36, 37, 38]]
    rootPosHistoryInRootFrame := [[1], [2], [3]]
    rootEulerHistoryInRootFrame := [[4], [5], [6]]
    taus := [[41, 42], [43, 44], [45, 46]]
    groundBodyWrenchesInRootFrame := [[2, 4, 6, 8, 10, 12], [14, 16, 18, 20, 22, 24], [26, 28, 30, 32, 34, 36]]
    groundBodyCopTorqueForceInRootFrame :=
      [[1, 2, 3, 10, 12, 14, 20, 22, 24],
       [4, 5, 6, 16, 18, 20, 26, 28, 30],
       [7, 8, 9, 22, 24, 26, 32, 34, 36]]
    comAccsInRootFrame := [[51, 52, 53], [54, 55, 56], [57, 58, 59]]
    residualWrenchInRootFrame := [[61, 62, 63, 64, 65, 66], [67, 68, 69, 70, 71, 72], [73, 74, 75, 76, 77, 78]] }

/-- A concrete 3-frame trial whose last frame is flagged missing. -/
def exTrial : Trial :=
  { length := 3
    missingGRF := [.notMissingGRF, .notMissingGRF, .unmeasuredExternalContactDetected]
    passes := [exInPass, exOutPass] }

/-- A concrete subject with mass 2 kg and one raw contact body `calcn_r`;
the registry body `calcn_l` is absent from its raw list. -/
def exSubject : Subject :=
  { numDofs := 2
    numJoints := 1
    groundForceBodies := ["calcn_r"]
    massKg := 2
    numProcessingPasses := 2
    trials := [exTrial]
    skel := { bodyNodeNames := ["pelvis", "calcn_r", "calcn_l"] } }

/-- The oracle mapping every path to the concrete subject. -/
def exSource : String → Subject := fun _ => exSubject

/-- A concrete dataset with window size 2 and a two-body registry, as the
constructor would have produced it for a first subject whose raw list was
`["calcn_l", "pelvis", "calcn_r"]`. -/
def exDs : Dataset :=
  { data_path := "data"
    window_size := 2
    geometry_folder := "geo"
    subject_paths := ["data/s0.b3d"]
    windows := []
    contact_bodies := ["calcn_l", "calcn_r"]
    skeletons := [exSubject.skel]
    skeletons_contact_bodies := [[some 2, some 1]]
    num_dofs := some 2
    num_joints := some 1 }

/-- A one-subject directory as the constructor sees it. -/
def exFs : DiscoveryInput := ⟨true, [("data", "s0.b3d")]⟩

/-- The dataset the constructor builds from `exFs` with `exSource`, window
size 2 and skeleton loading skipped. -/
def exInitDs : Dataset :=
  { data_path := "data"
    window_size := 2
    geometry_folder := "geo"
    subject_paths := ["data/s0.b3d"]
    windows := []
    contact_bodies := ["calcn_r"]
    skeletons := []
    skeletons_contact_bodies := []
    num_dofs := some 2
    num_joints := some 1 }

/-- A two-subject directory as the constructor sees it. -/
def exFs2 : DiscoveryInput := ⟨true, [("data", "s0.b3d"), ("data", "s1.b3d")]⟩

/-- A second subject carrying an extra raw contact-body name `toes_l` that the
first subject does not have. -/
def exSubjectB : Subject :=
  { exSubject with groundForceBodies := ["calcn_r", "toes_l"] }

/-- An oracle agreeing with `exSource` on the first subject path but returning
the extra-body subject for the second one. -/
def exSource2 : String → Subject :=
  fun p => if p = "data/s1.b3d" then exSubjectB else exSubject

/-- The dataset the constructor builds from `exFs2` (with either oracle),
window size 2 and skeleton loading skipped. -/
def exInitDs2 : Dataset :=
  { data_path := "data"
    window_size := 2
    geometry_folder := "geo"
    subject_paths := ["data/s0.b3d", "data/s1.b3d"]
    windows := []
    contact_bodies := ["calcn_r"]
    skeletons := []
    skeletons_contact_bodies := []
    num_dofs := some 2
    num_joints := some 1 }

/-! ## Helper lemmas about the numpy primitives -/

theorem sliceRows_length {m : List (List ℚ)} {start w : ℕ}
    (h : start + w ≤ m.length) :
    (sliceRows m start (start + w)).length = w := by
  simp [sliceRows]
  omega

theorem sliceCols_length (m : List (List ℚ)) (c0 c1 : ℕ) :
    (sliceCols m c0 c1).length = m.length := by
  simp [sliceCols]

theorem sliceCols_width {m : List (List ℚ)} {c0 c1 w : ℕ}
    (hw : ∀ r ∈ m, r.length = w) (h1 : c1 ≤ w) :
    ∀ r ∈ sliceCols m c0 c1, r.length = c1 - c0 := by
  intro r hr
  simp only [sliceCols, List.mem_map] at hr
  obtain ⟨row, hrow, rfl⟩ := hr
  have := hw row hrow
  simp [List.length_take, List.length_drop, this]
  omega

theorem divRows_length (m : List (List ℚ)) (mass : ℚ) :
    (divRows m mass).length = m.length := by
  simp [divRows]

theorem divRows_width {m : List (List ℚ)} {w : ℕ} (mass : ℚ)
    (hw : ∀ r ∈ m, r.length = w) :
    ∀ r ∈ divRows m mass, r.length = w := by
  intro r hr
  simp only [divRows, List.mem_map] at hr
  obtain ⟨row, hrow, rfl⟩ := hr
  simp [hw row hrow]

theorem zeros_length (rows cols : ℕ) : (zeros rows cols).length = rows := by
  simp [zeros]

theorem zeros_width (rows cols : ℕ) : ∀ r ∈ zeros rows cols, r.length = cols := by
  intro r hr
  rw [zeros, List.mem_replicate] at hr
  simp [hr.2]

theorem rowSet_slice_of_le {row brow : List ℚ} {c0 a0 a1 : ℕ}
    (hc : c0 ≤ row.length) (ha : a1 ≤ c0) :
    (((row.take c0 ++ brow ++ row.drop (c0 + brow.length)).drop a0).take (a1 - a0)) =
    ((row.drop a0).take (a1 - a0)) := by
  by_cases h01 : a1 ≤ a0
  · simp [Nat.sub_eq_zero_of_le h01]
  · push_neg at h01
    rw [List.append_assoc, List.drop_append_eq_append_drop,
        List.take_append_eq_append_take]
    have hl : ((row.take c0).drop a0).length = c0 - a0 := by
      simp [List.length_drop, List.length_take]; omega
    have hz : a1 - a0 - ((row.take c0).drop a0).length = 0 := by omega
    rw [hz, List.take_zero, List.append_nil, List.drop_take, List.take_take]
    congr 1
    omega

theorem rowSet_slice_self {row brow : List ℚ} {c0 : ℕ}
    (hc : c0 ≤ row.length) :
    (((row.take c0 ++ brow ++ row.drop (c0 + brow.length)).drop c0).take brow.length) = brow := by
  rw [List.append_assoc, List.drop_append_eq_append_drop]
  have h1 : (row.take c0).drop c0 = [] := by
    apply List.drop_eq_nil_of_le
    simp [List.length_take]
  have h2 : c0 - (row.take c0).length = 0 := by
    simp [List.length_take]
    omega
  rw [h1, h2, List.nil_append, List.drop_zero, List.take_append_eq_append_take]
  simp

theorem rowSet_slice_of_ge {row brow : List ℚ} {c0 a0 a1 : ℕ}
    (hc : c0 ≤ row.length) (ha : c0 + brow.length ≤ a0) :
    (((row.take c0 ++ brow ++ row.drop (c0 + brow.length)).drop a0).take (a1 - a0)) =
    ((row.drop a0).take (a1 - a0)) := by
  rw [List.append_assoc, List.drop_append_eq_append_drop]
  have h1 : (row.take c0).drop a0 = [] := by
    apply List.drop_eq_nil_of_le
    simp [List.length_take]; omega
  rw [h1, List.nil_append, List.drop_append_eq_append_drop]
  have h2 : brow.drop (a0 - (row.take c0).length) = [] := by
    apply List.drop_eq_nil_of_le
    simp [List.length_take]; omega
  rw [h2, List.nil_append, List.drop_drop]
  congr 2
  simp [List.length_take]
  omega

theorem setCols_length {m b : List (List ℚ)} (c0 : ℕ) (h : b.length = m.length) :
    (setCols m c0 b).length = m.length := by
  simp [setCols]
  omega

theorem setCols_width {m b : List (List ℚ)} {w bw c0 : ℕ}
    (hm : ∀ r ∈ m, r.length = w) (hb : ∀ r ∈ b, r.length = bw)
    (hcw : c0 + bw ≤ w) :
    ∀ r ∈ setCols m c0 b, r.length = w := by
  induction m generalizing b with
  | nil => intro r hr; simp [setCols] at hr
  | cons row rows ih =>
    cases b with
    | nil => intro r hr; simp [setCols] at hr
    | cons brow brows =>
      intro r hr
      rcases List.mem_cons.mp hr with h | h
      · subst h
        have h1 := hm row (by simp)
        have h2 := hb brow (by simp)
        simp [List.length_append, List.length_take, List.length_drop, h1, h2]
        omega
      · exact ih (fun r hr => hm r (by simp [hr])) (fun r hr => hb r (by simp [hr])) r h

theorem sliceCols_setCols_of_le {m b : List (List ℚ)} {c0 a0 a1 : ℕ}
    (hlen : b.length = m.length) (hc : ∀ r ∈ m, c0 ≤ r.length) (ha : a1 ≤ c0) :
    sliceCols (setCols m c0 b) a0 a1 = sliceCols m a0 a1 := by
  induction m generalizing b with
  | nil => simp [setCols, sliceCols]
  | cons row rows ih =>
    cases b with
    | nil => simp at hlen
    | cons brow brows =>
      simp only [setCols, List.zipWith_cons_cons, sliceCols, List.map_cons]
      congr 1
      · exact rowSet_slice_of_le (hc row (by simp)) ha
      · exact ih (by simpa using hlen) (fun r hr => hc r (by simp [hr]))

theorem sliceCols_setCols_self {m b : List (List ℚ)} {c0 bw : ℕ}
    (hlen : b.length = m.length) (hc : ∀ r ∈ m, c0 ≤ r.length)
    (hb : ∀ r ∈ b, r.length = bw) :
    sliceCols (setCols m c0 b) c0 (c0 + bw) = b := by
  induction m generalizing b with
  | nil =>
    cases b with
    | nil => simp [setCols, sliceCols]
    | cons _ _ => simp at hlen
  | cons row rows ih =>
    cases b with
    | nil => simp at hlen
    | cons brow brows =>
      simp only [setCols, List.zipWith_cons_cons, sliceCols, List.map_cons]
      congr 1
      · have hbw : brow.length = bw := hb brow (by simp)
        rw [Nat.add_sub_cancel_left, ← hbw]
        exact rowSet_slice_self (hc row (by simp))
      · exact ih (by simpa using hlen) (fun r hr => hc r (by simp [hr]))
          (fun r hr => hb r (by simp [hr]))

theorem sliceCols_setCols_of_ge {m b : List (List ℚ)} {c0 bw a0 a1 : ℕ}
    (hlen : b.length = m.length) (hc : ∀ r ∈ m, c0 ≤ r.length)
    (hb : ∀ r ∈ b, r.length = bw) (ha : c0 + bw ≤ a0) :
    sliceCols (setCols m c0 b) a0 a1 = sliceCols m a0 a1 := by
  induction m generalizing b with
  | nil => simp [setCols, sliceCols]
  | cons row rows ih =>
    cases b with
    | nil => simp at hlen
    | cons brow brows =>
      simp only [setCols, List.zipWith_cons_cons, sliceCols, List.map_cons]
      congr 1
      · have hbw : brow.length = bw := hb brow (by simp)
        exact rowSet_slice_of_ge (hc row (by simp)) (by omega)
      · exact ih (by simpa using hlen) (fun r hr => hc r (by simp [hr]))
          (fun r hr => hb r (by simp [hr]))

theorem sliceCols_zeros {rows cols a0 a1 : ℕ} (h : a1 ≤ cols) :
    sliceCols (zeros rows cols) a0 a1 = zeros rows (a1 - a0) := by
  simp [sliceCols, zeros, List.map_replicate, List.drop_replicate, List.take_replicate]
  omega

/-! ## Characterization of the contact-block filling loop -/

theorem fillContactBlocks_succ (n : ℕ) (ci : List ℤ) (init : List (List ℚ))
    (block : ℕ → List (List ℚ)) :
    fillContactBlocks (n + 1) ci init block =
      (if 0 ≤ ci.getD n (-1) then
        setCols (fillContactBlocks n ci init block) (3 * n)
          (block (ci.getD n (-1)).toNat)
      else fillContactBlocks n ci init block) := by
  unfold fillContactBlocks
  rw [List.range_succ, List.foldl_append]
  simp

theorem fillContactBlocks_length {n : ℕ} {ci : List ℤ} {init : List (List ℚ)}
    {block : ℕ → List (List ℚ)}
    (hbl : ∀ c, (block c).length = init.length) :
    (fillContactBlocks n ci init block).length = init.length := by
  induction n with
  | zero => rfl
  | succ n ih =>
    rw [fillContactBlocks_succ]
    split
    · rw [setCols_length _ ((hbl _).trans ih.symm)]
      exact ih
    · exact ih

theorem fillContactBlocks_width {n : ℕ} {ci : List ℤ} {init : List (List ℚ)}
    {block : ℕ → List (List ℚ)} {W : ℕ}
    (hiw : ∀ r ∈ init, r.length = W)
    (hbw : ∀ i, i < n → 0 ≤ ci.getD i (-1) →
      ∀ r ∈ block (ci.getD i (-1)).toNat, r.length = 3)
    (hW : 3 * n ≤ W) :
    ∀ r ∈ fillContactBlocks n ci init block, r.length = W := by
  induction n with
  | zero => exact hiw
  | succ n ih =>
    rw [fillContactBlocks_succ]
    split
    · refine setCols_width ?_ (hbw n (by omega) (by assumption)) (by omega)
      exact ih (fun i hi => hbw i (by omega)) (by omega)
    · exact ih (fun i hi => hbw i (by omega)) (by omega)

theorem fillContactBlocks_slice_ge {n : ℕ} {ci : List ℤ} {init : List (List ℚ)}
    {block : ℕ → List (List ℚ)} {W a0 a1 : ℕ}
    (hiw : ∀ r ∈ init, r.length = W)
    (hbl : ∀ c, (block c).length = init.length)
    (hbw : ∀ i, i < n → 0 ≤ ci.getD i (-1) →
      ∀ r ∈ block (ci.getD i (-1)).toNat, r.length = 3)
    (hW : 3 * n ≤ W) (ha : 3 * n ≤ a0) :
    sliceCols (fillContactBlocks n ci init block) a0 a1 = sliceCols init a0 a1 := by
  induction n with
  | zero => rfl
  | succ n ih =>
    rw [fillContactBlocks_succ]
    have hbw' : ∀ i, i < n → 0 ≤ ci.getD i (-1) →
        ∀ r ∈ block (ci.getD i (-1)).toNat, r.length = 3 :=
      fun i hi => hbw i (by omega)
    split
    · have ha3 : 3 * n + 3 ≤ a0 := by omega
      rw [sliceCols_setCols_of_ge
          ((hbl _).trans (fillContactBlocks_length hbl).symm)
          (fun r hr => by
            rw [fillContactBlocks_width hiw hbw' (by omega) r hr]; omega)
          (hbw n (by omega) (by assumption))
          ha3]
      exact ih hbw' (by omega) (by omega)
    · exact ih hbw' (by omega) (by omega)

theorem fillContactBlocks_slice {n : ℕ} {ci : List ℤ} {init : List (List ℚ)}
    {block : ℕ → List (List ℚ)} {W : ℕ}
    (hiw : ∀ r ∈ init, r.length = W)
    (hbl : ∀ c, (block c).length = init.length)
    (hbw : ∀ i, i < n → 0 ≤ ci.getD i (-1) →
      ∀ r ∈ block (ci.getD i (-1)).toNat, r.length = 3)
    (hW : 3 * n ≤ W) :
    ∀ j < n, sliceCols (fillContactBlocks n ci init block) (3 * j) (3 * j + 3) =
      (if 0 ≤ ci.getD j (-1) then block (ci.getD j (-1)).toNat
       else sliceCols init (3 * j) (3 * j + 3)) := by
  induction n with
  | zero => intro j hj; omega
  | succ n ih =>
    intro j hj
    have hbw' : ∀ i, i < n → 0 ≤ ci.getD i (-1) →
        ∀ r ∈ block (ci.getD i (-1)).toNat, r.length = 3 :=
      fun i hi => hbw i (by omega)
    have hlen : ∀ c, (block c).length =
        (fillContactBlocks n ci init block).length :=
      fun c => (hbl c).trans (fillContactBlocks_length hbl).symm
    have hc : ∀ r ∈ fillContactBlocks n ci init block, 3 * n ≤ r.length :=
      fun r hr => by
        rw [fillContactBlocks_width hiw hbw' (by omega) r hr]; omega
    rw [fillContactBlocks_succ]
    by_cases hcond : 0 ≤ ci.getD n (-1)
    · rw [if_pos hcond]
      by_cases hjn : j < n
      · rw [sliceCols_setCols_of_le (hlen _) hc (by omega)]
        exact ih hbw' (by omega) j hjn
      · have hje : j = n := by omega
        subst hje
        rw [if_pos hcond]
        exact sliceCols_setCols_self (hlen _) hc (hbw j hj hcond)
    · rw [if_neg hcond]
      by_cases hjn : j < n
      · exact ih hbw' (by omega) j hjn
      · have hje : j = n := by omega
        subst hje
        rw [if_neg hcond]
        exact fillContactBlocks_slice_ge hiw hbl hbw' (by omega) (by omega)

/-! ## Characterization of the window-materialization folds -/

theorem foldl_skip_append {α β : Type} (l : List α) (p : α → Bool) (f : α → β) :
    ∀ acc : List β × ℕ,
      l.foldl (fun acc x => if p x then (acc.1, acc.2 + 1) else (acc.1 ++ [f x], acc.2)) acc =
      (acc.1 ++ (l.filter (fun x => !(p x))).map f, acc.2 + (l.filter p).length) := by
  induction l with
  | nil => intro acc; simp
  | cons x xs ih =>
    intro acc
    by_cases hx : p x
    · simp [hx, ih]
      omega
    · simp [hx, ih]

theorem foldl_pair_append {α β : Type} (l : List α) (h : α → List β × ℕ) :
    ∀ acc : List β × ℕ,
      l.foldl (fun acc a => (acc.1 ++ (h a).1, acc.2 + (h a).2)) acc =
      (acc.1 ++ (l.map (fun a => (h a).1)).flatten, acc.2 + (l.map (fun a => (h a).2)).sum) := by
  induction l with
  | nil => intro acc; simp
  | cons x xs ih =>
    intro acc
    simp [ih]
    omega

theorem processTrial_eq (ws : ℕ) (cbs : List String) (subject : Subject)
    (si : ℕ) (trial : Trial) :
    processTrial ws cbs subject si trial =
      (((List.range (numCandidates trial.length ws)).filter
          (fun s => !(anyMissing (probablyMissing trial) s ws))).map
         (fun s => makeWindow ws cbs subject (trial.passes.getD 0 default)
            (trial.passes.getLastD default) si s),
       ((List.range (numCandidates trial.length ws)).filter
          (fun s => anyMissing (probablyMissing trial) s ws)).length) := by
  unfold processTrial
  simpa using foldl_skip_append (List.range (numCandidates trial.length ws)) _ _ ([], 0)

theorem processSubject_eq (ws : ℕ) (cbs : List String) (subject : Subject) (si : ℕ) :
    processSubject ws cbs subject si =
      ((subject.trials.map (fun t => (processTrial ws cbs subject si t).1)).flatten,
       (subject.trials.map (fun t => (processTrial ws cbs subject si t).2)).sum) := by
  unfold processSubject
  simpa using foldl_pair_append subject.trials
    (fun t => processTrial ws cbs subject si t) ([], 0)

theorem prepare_data_for_subset_eq (ds : Dataset) (source : String → Subject)
    (subset : Option (List ℕ)) :
    prepare_data_for_subset ds source subset =
      ({ ds with windows :=
          ((subsetIdxs ds subset).map
            (fun si => (processSubject ds.window_size ds.contact_bodies
               (source (ds.subject_paths.getD si "")) si).1)).flatten },
       ((subsetIdxs ds subset).map
         (fun si => (processSubject ds.window_size ds.contact_bodies
            (source (ds.subject_paths.getD si "")) si).2)).sum) := by
  unfold prepare_data_for_subset subsetIdxs
  simp only [foldl_pair_append]
  simp

theorem mem_prepare_windows {ds : Dataset} {source : String → Subject}
    {subset : Option (List ℕ)} {w : Window} :
    w ∈ (prepare_data_for_subset ds source subset).1.windows ↔
    ∃ si ∈ subsetIdxs ds subset,
    ∃ t ∈ (source (ds.subject_paths.getD si "")).trials,
    ∃ start,
      start < numCandidates t.length ds.window_size ∧
      anyMissing (probablyMissing t) start ds.window_size = false ∧
      w = makeWindow ds.window_size ds.contact_bodies
            (source (ds.subject_paths.getD si ""))
            (t.passes.getD 0 default) (t.passes.getLastD default) si start := by
  rw [prepare_data_for_subset_eq]
  simp only [processSubject_eq, processTrial_eq, List.mem_flatten, List.mem_map,
    List.mem_filter, List.mem_range, Bool.not_eq_true']
  aesop

/-! ## Per-window lemmas and claim C1 -/

theorem getD_zero_mem {α : Type} {l : List α} (d : α) (h : l ≠ []) :
    l.getD 0 d ∈ l := by
  cases l with
  | nil => exact absurd rfl h
  | cons x xs => simp

theorem getLastD_mem {α : Type} {l : List α} (h : l ≠ []) :
    ∀ d, l.getLastD d ∈ l := by
  cases l with
  | nil => exact absurd rfl h
  | cons x xs =>
    intro d
    rw [List.getLastD_cons]
    exact List.getLastD_mem_cons xs x

theorem contactIndices_getD {cbs raw : List String} {i : ℕ} (hi : i < cbs.length) :
    (contactIndices cbs raw).getD i (-1) =
      (if (cbs.getD i "") ∈ raw then ((raw.indexOf (cbs.getD i "")) : ℤ) else -1) := by
  unfold contactIndices
  rw [List.getD_eq_getElem _ _ (by simpa using hi), List.getElem_map,
      List.getD_eq_getElem _ _ hi]

theorem makeWindow_rows {ws : ℕ} {cbs : List String} {subject : Subject}
    {inPass outPass : TrialPass} {si start n : ℕ}
    (hin : PassWF n subject.groundForceBodies.length inPass)
    (hout : PassWF n subject.groundForceBodies.length outPass)
    (hstart : start + ws ≤ n) :
    WindowRowsOK ws (makeWindow ws cbs subject inPass outPass si start) := by
  obtain ⟨h1, h2, h3, h4, h5, h6, h7, h8, h9, h10, h11, h12, h13, h14, h15, h16⟩ := hin
  obtain ⟨g1, g2, g3, g4, g5, g6, g7, g8, g9, g10, g11, g12, g13, g14, g15, g16⟩ := hout
  have hinit : (zeros (start + ws - start) (3 * cbs.length)).length = ws := by
    rw [zeros_length]; omega
  have hctf : start + ws ≤ outPass.groundBodyCopTorqueForceInRootFrame.length := by
    rw [g13]; exact hstart
  refine ⟨?_, ?_, ?_, ?_, ?_, ?_, ?_, ?_, ?_, ?_, ?_, ?_, ?_, ?_, ?_, ?_, ?_⟩
  · exact sliceRows_length (by rw [h1]; exact hstart)
  · exact sliceRows_length (by rw [h2]; exact hstart)
  · exact sliceRows_length (by rw [h3]; exact hstart)
  · exact sliceRows_length (by rw [h4]; exact hstart)
  · rw [show (makeWindow ws cbs subject inPass outPass si start).input.rootLinearVelInRootFrame =
        sliceCols (sliceRows inPass.rootSpatialVelInRootFrame start (start + ws)) 3 6 from rfl,
      sliceCols_length]
    exact sliceRows_length (by rw [h5]; exact hstart)
  · rw [show (makeWindow ws cbs subject inPass outPass si start).input.rootAngularVelInRootFrame =
        sliceCols (sliceRows inPass.rootSpatialVelInRootFrame start (start + ws)) 0 3 from rfl,
      sliceCols_length]
    exact sliceRows_length (by rw [h5]; exact hstart)
  · rw [show (makeWindow ws cbs subject inPass outPass si start).input.rootLinearAccInRootFrame =
        sliceCols (sliceRows inPass.rootSpatialAccInRootFrame start (start + ws)) 3 6 from rfl,
      sliceCols_length]
    exact sliceRows_length (by rw [h7]; exact hstart)
  · rw [show (makeWindow ws cbs subject inPass outPass si start).input.rootAngularAccInRootFrame =
        sliceCols (sliceRows inPass.rootSpatialAccInRootFrame start (start + ws)) 0 3 from rfl,
      sliceCols_length]
    exact sliceRows_length (by rw [h7]; exact hstart)
  · exact sliceRows_length (by rw [h9]; exact hstart)
  · exact sliceRows_length (by rw [h10]; exact hstart)
  · exact sliceRows_length (by rw [g11]; exact hstart)
  · rw [show (makeWindow ws cbs subject inPass outPass si start).output.groundContactWrenchesInRootFrame =
        divRows (sliceRows outPass.groundBodyWrenchesInRootFrame start (start + ws)) subject.massKg from rfl,
      divRows_length]
    exact sliceRows_length (by rw [g12]; exact hstart)
  · rw [show (makeWindow ws cbs subject inPass outPass si start).output.groundContactCopsInRootFrame =
        fillContactBlocks cbs.length (contactIndices cbs subject.groundForceBodies)
          (zeros (start + ws - start) (3 * cbs.length))
          (fun c => sliceCols (sliceRows outPass.groundBodyCopTorqueForceInRootFrame start (start + ws)) (9 * c) (9 * c + 3)) from rfl,
      fillContactBlocks_length (fun c => by rw [sliceCols_length, sliceRows_length hctf, hinit]),
      hinit]
  · rw [show (makeWindow ws cbs subject inPass outPass si start).output.groundContactTorquesInRootFrame =
        fillContactBlocks cbs.length (contactIndices cbs subject.groundForceBodies)
          (zeros (start + ws - start) (3 * cbs.length))
          (fun c => divRows (sliceCols (sliceRows outPass.groundBodyCopTorqueForceInRootFrame start (start + ws)) (9 * c + 3) (9 * c + 6)) subject.massKg) from rfl,
      fillContactBlocks_length (fun c => by rw [divRows_length, sliceCols_length, sliceRows_length hctf, hinit]),
      hinit]
  · rw [show (makeWindow ws cbs subject inPass outPass si start).output.groundContactForcesInRootFrame =
        fillContactBlocks cbs.length (contactIndices cbs subject.groundForceBodies)
          (zeros (start + ws - start) (3 * cbs.length))
          (fun c => divRows (sliceCols (sliceRows outPass.groundBodyCopTorqueForceInRootFrame start (start + ws)) (9 * c + 6) (9 * c + 9)) subject.massKg) from rfl,
      fillContactBlocks_length (fun c => by rw [divRows_length, sliceCols_length, sliceRows_length hctf, hinit]),
      hinit]
  · exact sliceRows_length (by rw [g16]; exact hstart)
  · exact sliceRows_length (by rw [g15]; exact hstart)
/-- C1: for every window materialized by `prepare_data_for_subset`, every
input-field and output-field array has exactly `window_size` rows, no frame in
the window's range is flagged missing, and the window stays inside its
trial. -/
theorem C1_window_invariants (ds : Dataset) (source : String → Subject)
    (subset : Option (List ℕ))
    (hWF : ∀ si ∈ subsetIdxs ds subset,
      SubjectWF (source (ds.subject_paths.getD si ""))) :
    RowsInvariantHolds ds source subset := by
  intro w hw
  obtain ⟨si, hsi, t, ht, start, hlt, hmiss, hweq⟩ := mem_prepare_windows.mp hw
  obtain ⟨hmlen, hpne, hpass⟩ := hWF si hsi t ht
  have hstart : start + ds.window_size ≤ t.length := by
    unfold numCandidates at hlt
    omega
  refine ⟨?_, si, hsi, t, ht, start, hlt, hmiss, hweq, hstart, ?_⟩
  · subst hweq
    exact makeWindow_rows (hpass _ (getD_zero_mem default hpne))
      (hpass _ (getLastD_mem hpne default)) hstart
  · intro k hk
    unfold anyMissing at hmiss
    rw [List.any_eq_false] at hmiss
    have := hmiss k (List.mem_range.mpr hk)
    simpa using this

theorem C1_witness : RowsInvariantHolds exDs exSource none :=
  C1_window_invariants exDs exSource none (by decide)

/-! ## Claims C2, C4, C8 -/

theorem mem_of_mem_sliceRows {m : List (List ℚ)} {s e : ℕ} {r : List ℚ}
    (h : r ∈ sliceRows m s e) : r ∈ m :=
  List.mem_of_mem_drop (List.mem_of_mem_take h)

theorem fillContact_at (cbs raw : List String) (R : ℕ)
    (block : ℕ → List (List ℚ))
    (hbl : ∀ c, (block c).length = R)
    (hbw : ∀ c, c < raw.length → ∀ r ∈ block c, r.length = 3) :
    ∀ j < cbs.length,
      sliceCols (fillContactBlocks cbs.length (contactIndices cbs raw)
          (zeros R (3 * cbs.length)) block) (3 * j) (3 * j + 3) =
        (if (cbs.getD j "") ∈ raw then block (raw.indexOf (cbs.getD j "")) else zeros R 3) := by
  intro j hj
  have hbw2 : ∀ i, i < cbs.length →
      0 ≤ (contactIndices cbs raw).getD i (-1) →
      ∀ r ∈ block (((contactIndices cbs raw).getD i (-1)).toNat), r.length = 3 := by
    intro i hi hip
    rw [contactIndices_getD hi] at hip ⊢
    by_cases hm : (cbs.getD i "") ∈ raw
    · rw [if_pos hm] at hip ⊢
      rw [Int.toNat_natCast]
      exact hbw _ (List.indexOf_lt_length.mpr hm)
    · rw [if_neg hm] at hip
      omega
  have main := fillContactBlocks_slice (W := 3 * cbs.length)
    (zeros_width _ _)
    (fun c => (hbl c).trans (zeros_length _ _).symm)
    hbw2 (Nat.le_refl _) j hj
  rw [contactIndices_getD hj] at main
  by_cases hmem : (cbs.getD j "") ∈ raw
  · rw [if_pos hmem] at main ⊢
    rw [if_pos (by exact_mod_cast Nat.zero_le _ :
          (0 : ℤ) ≤ ((raw.indexOf (cbs.getD j "")) : ℤ)),
        Int.toNat_natCast] at main
    exact main
  · rw [if_neg hmem] at main ⊢
    rw [if_neg (by omega : ¬ ((0 : ℤ) ≤ -1))] at main
    rw [main, sliceCols_zeros (by omega)]
    congr 1
    omega

/-- C2: ground-contact wrench and mapped per-contact-body torque/force outputs
are the raw recorded values divided elementwise by the subject's mass; the
center-of-pressure, tau, residual-wrench and com-acceleration outputs and all
input fields are copied unscaled. -/
theorem C2_mass_normalization (ds : Dataset) (source : String → Subject)
    (subset : Option (List ℕ))
    (hWF : ∀ si ∈ subsetIdxs ds subset,
      SubjectWF (source (ds.subject_paths.getD si ""))) :
    MassScalingHolds ds source subset := by
  intro w hw
  obtain ⟨si, hsi, t, ht, start, hlt, hmiss, hweq⟩ := mem_prepare_windows.mp hw
  obtain ⟨hmlen, hpne, hpass⟩ := hWF si hsi t ht
  have hstart : start + ds.window_size ≤ t.length := by
    unfold numCandidates at hlt
    omega
  obtain ⟨g1, g2, g3, g4, g5, g6, g7, g8, g9, g10, g11, g12, g13, g14, g15, g16⟩ :=
    hpass _ (getLastD_mem hpne default)
  refine ⟨si, hsi, t, ht, start, hlt, hmiss, hweq, ?_⟩
  subst hweq
  have hctf : start + ds.window_size ≤
      (t.passes.getLastD default).groundBodyCopTorqueForceInRootFrame.length := by
    rw [g13]; exact hstart
  have hsrw : ∀ r ∈ sliceRows (t.passes.getLastD default).groundBodyCopTorqueForceInRootFrame
      start (start + ds.window_size),
      r.length = 9 * (source (ds.subject_paths.getD si "")).groundForceBodies.length :=
    fun r hr => g14 r (mem_of_mem_sliceRows hr)
  refine ⟨rfl, ?_, rfl, rfl, rfl, rfl, rfl, rfl, rfl, rfl, rfl, rfl, rfl, rfl, rfl⟩
  intro i hi hmem
  refine ⟨?_, ?_, ?_⟩
  · have hC := fillContact_at ds.contact_bodies
      (source (ds.subject_paths.getD si "")).groundForceBodies
      (start + ds.window_size - start)
      (fun c => sliceCols (sliceRows
          (t.passes.getLastD default).groundBodyCopTorqueForceInRootFrame
          start (start + ds.window_size)) (9 * c) (9 * c + 3))
      (fun c => by rw [sliceCols_length, sliceRows_length hctf]; omega)
      (fun c hc r hr => by
        have := sliceCols_width hsrw (by omega) r hr
        omega)
      i hi
    rw [if_pos hmem] at hC
    exact hC
  · have hC := fillContact_at ds.contact_bodies
      (source (ds.subject_paths.getD si "")).groundForceBodies
      (start + ds.window_size - start)
      (fun c => divRows (sliceCols (sliceRows
          (t.passes.getLastD default).groundBodyCopTorqueForceInRootFrame
          start (start + ds.window_size)) (9 * c + 3) (9 * c + 6))
          (source (ds.subject_paths.getD si "")).massKg)
      (fun c => by rw [divRows_length, sliceCols_length, sliceRows_length hctf]; omega)
      (fun c hc r hr => by
        have hw3 : ∀ r2 ∈ sliceCols (sliceRows
            (t.passes.getLastD default).groundBodyCopTorqueForceInRootFrame
            start (start + ds.window_size)) (9 * c + 3) (9 * c + 6),
            r2.length = (9 * c + 6) - (9 * c + 3) := sliceCols_width hsrw (by omega)
        have := divRows_width _ hw3 r hr
        omega)
      i hi
    rw [if_pos hmem] at hC
    exact hC
  · have hC := fillContact_at ds.contact_bodies
      (source (ds.subject_paths.getD si "")).groundForceBodies
      (start + ds.window_size - start)
      (fun c => divRows (sliceCols (sliceRows
          (t.passes.getLastD default).groundBodyCopTorqueForceInRootFrame
          start (start + ds.window_size)) (9 * c + 6) (9 * c + 9))
          (source (ds.subject_paths.getD si "")).massKg)
      (fun c => by rw [divRows_length, sliceCols_length, sliceRows_length hctf]; omega)
      (fun c hc r hr => by
        have hw3 : ∀ r2 ∈ sliceCols (sliceRows
            (t.passes.getLastD default).groundBodyCopTorqueForceInRootFrame
            start (start + ds.window_size)) (9 * c + 6) (9 * c + 9),
            r2.length = (9 * c + 9) - (9 * c + 6) := sliceCols_width hsrw (by omega)
        have := divRows_width _ hw3 r hr
        omega)
      i hi
    rw [if_pos hmem] at hC
    exact hC
theorem C2_witness : MassScalingHolds exDs exSource none :=
  C2_mass_normalization exDs exSource none (by decide)

/-- C4: a registry entry absent from a subject's raw contact-body list leaves
that entry's three output slots all-zero in every window of that subject, and
no error is raised. -/
theorem C4_absent_body_zero (ds : Dataset) (source : String → Subject)
    (subset : Option (List ℕ))
    (hWF : ∀ si ∈ subsetIdxs ds subset,
      SubjectWF (source (ds.subject_paths.getD si ""))) :
    AbsentBodyZeroHolds ds source subset := by
  intro w hw
  obtain ⟨si, hsi, t, ht, start, hlt, hmiss, hweq⟩ := mem_prepare_windows.mp hw
  obtain ⟨hmlen, hpne, hpass⟩ := hWF si hsi t ht
  have hstart : start + ds.window_size ≤ t.length := by
    unfold numCandidates at hlt
    omega
  obtain ⟨g1, g2, g3, g4, g5, g6, g7, g8, g9, g10, g11, g12, g13, g14, g15, g16⟩ :=
    hpass _ (getLastD_mem hpne default)
  refine ⟨si, hsi, t, ht, start, hlt, hmiss, hweq, ?_⟩
  subst hweq
  have hctf : start + ds.window_size ≤
      (t.passes.getLastD default).groundBodyCopTorqueForceInRootFrame.length := by
    rw [g13]; exact hstart
  have hsrw : ∀ r ∈ sliceRows (t.passes.getLastD default).groundBodyCopTorqueForceInRootFrame
      start (start + ds.window_size),
      r.length = 9 * (source (ds.subject_paths.getD si "")).groundForceBodies.length :=
    fun r hr => g14 r (mem_of_mem_sliceRows hr)
  intro i hi hmem
  refine ⟨?_, ?_, ?_⟩
  · have hC := fillContact_at ds.contact_bodies
      (source (ds.subject_paths.getD si "")).groundForceBodies
      (start + ds.window_size - start)
      (fun c => sliceCols (sliceRows
          (t.passes.getLastD default).groundBodyCopTorqueForceInRootFrame
          start (start + ds.window_size)) (9 * c) (9 * c + 3))
      (fun c => by rw [sliceCols_length, sliceRows_length hctf]; omega)
      (fun c hc r hr => by
        have := sliceCols_width hsrw (by omega) r hr
        omega)
      i hi
    rw [if_neg hmem] at hC
    exact hC.trans (by congr 1; omega)
  · have hC := fillContact_at ds.contact_bodies
      (source (ds.subject_paths.getD si "")).groundForceBodies
      (start + ds.window_size - start)
      (fun c => divRows (sliceCols (sliceRows
          (t.passes.getLastD default).groundBodyCopTorqueForceInRootFrame
          start (start + ds.window_size)) (9 * c + 3) (9 * c + 6))
          (source (ds.subject_paths.getD si "")).massKg)
      (fun c => by rw [divRows_length, sliceCols_length, sliceRows_length hctf]; omega)
      (fun c hc r hr => by
        have hw3 : ∀ r2 ∈ sliceCols (sliceRows
            (t.passes.getLastD default).groundBodyCopTorqueForceInRootFrame
            start (start + ds.window_size)) (9 * c + 3) (9 * c + 6),
            r2.length = (9 * c + 6) - (9 * c + 3) := sliceCols_width hsrw (by omega)
        have := divRows_width _ hw3 r hr
        omega)
      i hi
    rw [if_neg hmem] at hC
    exact hC.trans (by congr 1; omega)
  · have hC := fillContact_at ds.contact_bodies
      (source (ds.subject_paths.getD si "")).groundForceBodies
      (start + ds.window_size - start)
      (fun c => divRows (sliceCols (sliceRows
          (t.passes.getLastD default).groundBodyCopTorqueForceInRootFrame
          start (start + ds.window_size)) (9 * c + 6) (9 * c + 9))
          (source (ds.subject_paths.getD si "")).massKg)
      (fun c => by rw [divRows_length, sliceCols_length, sliceRows_length hctf]; omega)
      (fun c hc r hr => by
        have hw3 : ∀ r2 ∈ sliceCols (sliceRows
            (t.passes.getLastD default).groundBodyCopTorqueForceInRootFrame
            start (start + ds.window_size)) (9 * c + 6) (9 * c + 9),
            r2.length = (9 * c + 9) - (9 * c + 6) := sliceCols_width hsrw (by omega)
        have := divRows_width _ hw3 r hr
        omega)
      i hi
    rw [if_neg hmem] at hC
    exact hC.trans (by congr 1; omega)

theorem C4_witness : AbsentBodyZeroHolds exDs exSource none :=
  C4_absent_body_zero exDs exSource none (by decide)

/-- C8: the root angular velocity/acceleration inputs are columns 0..3 and the
root linear velocity/acceleration inputs are columns 3..6 of the 6-wide root
spatial arrays, sliced to the window's frame range. -/
theorem C8_root_column_split (ds : Dataset) (source : String → Subject)
    (subset : Option (List ℕ)) : RootSplitHolds ds source subset := by
  intro w hw
  obtain ⟨si, hsi, t, ht, start, hlt, hmiss, hweq⟩ := mem_prepare_windows.mp hw
  exact ⟨si, hsi, t, ht, start, hlt, hmiss, hweq,
    by subst hweq; exact ⟨rfl, rfl, rfl, rfl⟩⟩

/-! ## Claims C5, C7, C9 -/

theorem length_filter_not_add_length_filter {α : Type} (l : List α) (p : α → Bool) :
    (l.filter (fun x => !(p x))).length + (l.filter p).length = l.length := by
  induction l with
  | nil => simp
  | cons x xs ih =>
    by_cases hx : p x <;> simp [hx, List.filter_cons] <;> omega

theorem sum_map_add_distrib {α : Type} (l : List α) (f g : α → ℕ) :
    (l.map f).sum + (l.map g).sum = (l.map (fun x => f x + g x)).sum := by
  induction l with
  | nil => simp
  | cons x xs ih =>
    simp only [List.map_cons, List.sum_cons]
    omega

theorem processTrial_count (ws : ℕ) (cbs : List String) (subject : Subject)
    (si : ℕ) (trial : Trial) :
    (processTrial ws cbs subject si trial).1.length +
      (processTrial ws cbs subject si trial).2 =
      numCandidates trial.length ws := by
  rw [processTrial_eq]
  simp only [List.length_map]
  rw [length_filter_not_add_length_filter]
  exact List.length_range _

theorem processSubject_count (ws : ℕ) (cbs : List String) (subject : Subject)
    (si : ℕ) :
    (processSubject ws cbs subject si).1.length +
      (processSubject ws cbs subject si).2 =
      (subject.trials.map (fun t => numCandidates t.length ws)).sum := by
  rw [processSubject_eq]
  simp only [List.length_flatten, List.map_map]
  rw [sum_map_add_distrib]
  congr 1
  apply List.map_congr_left
  intro t ht
  exact processTrial_count ws cbs subject si t

theorem prepare_counts (ds : Dataset) (source : String → Subject)
    (subset : Option (List ℕ)) :
    (prepare_data_for_subset ds source subset).1.windows.length +
      (prepare_data_for_subset ds source subset).2 =
      totalCandidates ds source subset := by
  simp only [prepare_data_for_subset_eq, totalCandidates, List.length_flatten,
    List.map_map]
  rw [sum_map_add_distrib]
  congr 1
  apply List.map_congr_left
  intro si hsi
  exact processSubject_count ds.window_size ds.contact_bodies
    (source (ds.subject_paths.getD si "")) si

/-- C5: after `prepare_data_for_subset`, `length()` equals the total number of
candidate window starts across the selected subjects' trials minus the number
skipped for missing ground truth; every candidate is either appended or
counted as skipped. -/
theorem C5_length_accounting (ds : Dataset) (source : String → Subject)
    (subset : Option (List ℕ)) :
    dataset_len (prepare_data_for_subset ds source subset).1 +
      (prepare_data_for_subset ds source subset).2 =
      totalCandidates ds source subset ∧
    dataset_len (prepare_data_for_subset ds source subset).1 =
      totalCandidates ds source subset -
        (prepare_data_for_subset ds source subset).2 := by
  have h := prepare_counts ds source subset
  unfold dataset_len
  exact ⟨h, by omega⟩

/-- C7: re-running `prepare_data_for_subset` on the already-prepared dataset
with the same subset and the same recordings returns the identical window
store and skip count (bit-for-bit determinism; prior windows are ignored). -/
theorem C7_reprepare_deterministic (ds : Dataset) (source : String → Subject)
    (subset : Option (List ℕ)) :
    prepare_data_for_subset (prepare_data_for_subset ds source subset).1
        source subset =
      prepare_data_for_subset ds source subset := rfl

/-- C9: `prepare_data_for_subset` replaces the window store (the result is
what preparing from an empty store yields, and every stored window belongs to
a requested subject index) while leaving the registry, subject paths, window
size and loaded skeletons unchanged. -/
theorem C9_store_replacement (ds : Dataset) (source : String → Subject)
    (subset : Option (List ℕ)) :
    (prepare_data_for_subset ds source subset).1.subject_paths = ds.subject_paths ∧
    (prepare_data_for_subset ds source subset).1.window_size = ds.window_size ∧
    (prepare_data_for_subset ds source subset).1.contact_bodies = ds.contact_bodies ∧
    (prepare_data_for_subset ds source subset).1.skeletons = ds.skeletons ∧
    (prepare_data_for_subset ds source subset).1.skeletons_contact_bodies =
      ds.skeletons_contact_bodies ∧
    (∀ w ∈ (prepare_data_for_subset ds source subset).1.windows,
      w.subject_index ∈ subsetIdxs ds subset) ∧
    (prepare_data_for_subset ds source subset).1.windows =
      (prepare_data_for_subset { ds with windows := [] } source subset).1.windows := by
  refine ⟨rfl, rfl, rfl, rfl, rfl, ?_, rfl⟩
  intro w hw
  obtain ⟨si, hsi, t, ht, start, hlt, hmiss, hweq⟩ := mem_prepare_windows.mp hw
  subst hweq
  exact hsi

/-! ## Claims C3, C6, C10 -/

theorem buildContactBodies_go (l : List String) :
    ∀ acc : List String, "pelvis" ∉ acc →
      l.foldl (fun acc body =>
        if body = "pelvis" then acc
        else if body ∈ acc then acc
        else acc ++ [body]) acc =
      acc ++ firstSeenRegistry (l.filter (fun x => decide (x ∉ acc))) := by
  induction l with
  | nil => intro acc h; simp [firstSeenRegistry]
  | cons b rest ih =>
    intro acc hacc
    simp only [List.foldl_cons, List.filter_cons]
    by_cases hb : b = "pelvis"
    · subst hb
      rw [if_pos rfl, if_pos (by simpa using hacc), firstSeenRegistry]
      rw [if_pos rfl]
      exact ih acc hacc
    · rw [if_neg hb]
      by_cases hmem : b ∈ acc
      · rw [if_pos hmem, if_neg (by simpa using hmem)]
        exact ih acc hacc
      · rw [if_neg hmem, if_pos (by simpa using hmem)]
        rw [ih (acc ++ [b]) (by
          simp only [List.mem_append, List.mem_singleton]
          push_neg
          exact ⟨hacc, fun he => hb he.symm⟩)]
        rw [firstSeenRegistry, if_neg hb]
        rw [List.append_assoc]
        congr 1
        rw [List.singleton_append]
        congr 1
        rw [List.filter_filter]
        congr 1
        apply List.filter_congr
        intro x hx
        by_cases hxb : x = b
        · subst hxb
          simp [List.mem_append]
        · by_cases hxacc : x ∈ acc
          · simp [List.mem_append, hxacc]
          · simp [List.mem_append, hxacc, hxb]

theorem buildContactBodies_eq_firstSeenRegistry (raw : List String) :
    buildContactBodies raw = firstSeenRegistry raw := by
  have h := buildContactBodies_go raw [] (by simp)
  simpa using h
/-- C3: the registry built at construction is the first discovered subject's
raw contact-body list in first-seen order with `'pelvis'` and duplicates
skipped, and it does not depend on any later subject's raw list. -/
theorem C3_registry_from_first_subject (source source2 : String → Subject)
    (fs : DiscoveryInput) (dp : String) (ws : ℕ) (geo : String) (tf sf : Bool)
    (ds ds2 : Dataset)
    (h1 : datasetInit source fs dp ws geo tf sf = .ok ds)
    (h2 : datasetInit source2 fs dp ws geo tf sf = .ok ds2)
    (hne : ds.subject_paths ≠ [])
    (hagree : source2 (ds.subject_paths.getD 0 "") =
      source (ds.subject_paths.getD 0 "")) :
    ds.contact_bodies =
      firstSeenRegistry (source (ds.subject_paths.getD 0 "")).groundForceBodies ∧
    ds2.contact_bodies = ds.contact_bodies := by
  unfold datasetInit at h1 h2
  cases hd : discoverSubjectPaths fs dp with
  | error e =>
    rw [hd] at h1
    simp at h1
  | ok paths =>
    rw [hd] at h1 h2
    simp only [Except.ok.injEq] at h1 h2
    subst h1
    subst h2
    have hpne : paths ≠ [] := by
      intro hpn
      subst hpn
      cases tf <;> simp at hne
  
    have hfirst :
        (if tf = true then paths.take 2 else paths).getD 0 "" = paths.getD 0 "" := by
      cases paths with
      | nil => exact absurd rfl hpne
      | cons p ps => cases tf <;> simp
    constructor
    · simp only [hfirst]
      simp only [if_pos hpne]
      rw [buildContactBodies_eq_firstSeenRegistry]
    · simp only [hfirst] at hagree
      simp only [if_pos hpne]
      rw [hagree]
theorem C3_witness :
    datasetInit exSource exFs2 "data" 2 "geo" false true = .ok exInitDs2 ∧
    datasetInit exSource2 exFs2 "data" 2 "geo" false true = .ok exInitDs2 ∧
    exInitDs2.subject_paths ≠ [] ∧
    exSource2 (exInitDs2.subject_paths.getD 0 "") =
      exSource (exInitDs2.subject_paths.getD 0 "") ∧
    (exInitDs2.contact_bodies =
      firstSeenRegistry (exSource (exInitDs2.subject_paths.getD 0 "")).groundForceBodies ∧
     exInitDs2.contact_bodies = exInitDs2.contact_bodies) :=
  ⟨by decide, by decide, by decide, by rfl,
   C3_registry_from_first_subject exSource exSource2 exFs2 "data" 2 "geo"
     false true exInitDs2 exInitDs2 (by decide) (by decide) (by decide) (by rfl)⟩

/-- C6: constructing from a single-file path (not a directory) whose name does
not end in `.b3d` fails with the invalid-input error. -/
theorem C6_invalid_single_file (source : String → Subject) (fs : DiscoveryInput)
    (dp : String) (ws : ℕ) (geo : String) (tf sf : Bool)
    (h1 : fs.isDir = false) (h2 : pyEndsWith dp ".b3d" = false) :
    datasetInit source fs dp ws geo tf sf = .error .invalidInput := by
  simp [datasetInit, discoverSubjectPaths, h1, h2]

theorem C6_witness :
    (⟨false, []⟩ : DiscoveryInput).isDir = false ∧
    pyEndsWith "subject.txt" ".b3d" = false ∧
    datasetInit exSource ⟨false, []⟩ "subject.txt" 2 "geo" false false =
      .error .invalidInput :=
  ⟨rfl, by decide,
   C6_invalid_single_file exSource ⟨false, []⟩ "subject.txt" 2 "geo" false false
     rfl (by decide)⟩

/-- C10: immediately after construction the window store is empty: zero
length, every indexed access fails, and the testing-flag truncation has no
effect. -/
theorem C10_empty_store_after_init (source : String → Subject)
    (fs : DiscoveryInput) (dp : String) (ws : ℕ) (geo : String) (tf sf : Bool)
    (ds : Dataset)
    (h : datasetInit source fs dp ws geo tf sf = .ok ds) :
    ds.windows = [] ∧ dataset_len ds = 0 ∧
    ∀ index, dataset_getitem ds index = none := by
  unfold datasetInit at h
  cases hd : discoverSubjectPaths fs dp with
  | error e =>
    rw [hd] at h
    simp at h
  | ok paths =>
    rw [hd] at h
    simp only [Except.ok.injEq] at h
    subst h
    have hw : (if tf = true then ([] : List Window).take 100 else []) = [] := by
      cases tf <;> simp
    refine ⟨hw, ?_, ?_⟩
    · unfold dataset_len
      simp [hw]
    · intro index
      unfold dataset_getitem
      simp [hw]

theorem C10_witness :
    datasetInit exSource exFs "data" 2 "geo" false true = .ok exInitDs ∧
    (exInitDs.windows = [] ∧ dataset_len exInitDs = 0 ∧
      ∀ index, dataset_getitem exInitDs index = none) :=
  ⟨by decide,
   C10_empty_store_after_init exSource exFs "data" 2 "geo" false true exInitDs
     (by decide)⟩

end InferBiomechanics
